import Mathlib

/-
Verification of the task-scheduler core (taskSchema.js): data model,
claim protocol, execution engine, timeout sweeper and scheduler API,
shallowly embedded as pure Lean functions over an explicit store
(a list of task records).  Times are integers (milliseconds since
epoch); the injected clock is passed as an explicit `now` argument;
fresh document ids are passed explicitly.
-/

namespace Sched

/-- Status enum of a task record (taskSchema.js, `status` field). -/
inductive Status where
  | pending
  | in_progress
  | succeeded
  | failed
  | cancelled
  | timed_out
  | scheduling_timed_out
deriving DecidableEq, Repr

/-- Structured values stored in `params` / `result` (Mixed / Object fields). -/
inductive Value where
  | vnull
  | vbool (b : Bool)
  | vint (n : Int)
  | vstr (s : String)
deriving DecidableEq, Repr

/-- A task document, following the fields of `taskSchema`.
`logs` entries are (timestamp, message); side effects are kept as an
opaque list since no operation modelled here inspects their entries. -/
structure Task where
  id : Nat
  name : String
  params : Option Value
  scheduledAt : Int
  schedulingTimeoutAt : Option Int
  nextScheduledAt : Option Int
  repeatAfterMS : Option Int
  timeoutMS : Option Int
  cancelledAt : Option Int
  startedRunningAt : Option Int
  finishedRunningAt : Option Int
  retryOnTimeoutCount : Int
  timeoutAt : Option Int
  previousTaskId : Option Nat
  originalTaskId : Option Nat
  status : Status
  result : Option Value
  errorMessage : Option String
  errorStack : Option String
  workerName : Option String
  logs : List (Int × String)
  sideEffects : List String
deriving DecidableEq, Repr

/-- A freshly created document with schema defaults: `status` defaults to
`pending`, `retryOnTimeoutCount` defaults to 0, everything optional unset. -/
def newTaskBase (id : Nat) (name : String) (scheduledAt : Int) : Task :=
  { id := id
    name := name
    params := none
    scheduledAt := scheduledAt
    schedulingTimeoutAt := none
    nextScheduledAt := none
    repeatAfterMS := none
    timeoutMS := none
    cancelledAt := none
    startedRunningAt := none
    finishedRunningAt := none
    retryOnTimeoutCount := 0
    timeoutAt := none
    previousTaskId := none
    originalTaskId := none
    status := Status.pending
    result := none
    errorMessage := none
    errorStack := none
    workerName := none
    logs := []
    sideEffects := [] }

/-- `findOneAndUpdate(filter, update)`: atomically update the first document
matching the filter; returns the (pre-image, post-image) pair when a document
matched, together with the new store.  The caller picks the pre- or
post-image according to its `returnDocument` option. -/
def findOneAndUpdate : List Task → (Task → Bool) → (Task → Task) →
    Option (Task × Task) × List Task
  | [], _, _ => (none, [])
  | t :: rest, fil, upd =>
    if fil t then (some (t, upd t), upd t :: rest)
    else
      let r := findOneAndUpdate rest fil upd
      (r.1, t :: r.2)

/-- The claim filter of `poll`: `status: 'pending'`,
`scheduledAt: { $lte: now }`, `name: { $in: registeredHandlerNames }`. -/
def claimFilter (registeredHandlerNames : List String) (now : Int) (t : Task) : Bool :=
  t.status == Status.pending && t.scheduledAt ≤ now
    && registeredHandlerNames.contains t.name

/-- The claim update of `poll`: `status: 'in_progress'`,
`startedRunningAt: now`, `timeoutAt: now + 10 * 60 * 1000`, and
`workerName` only when the worker configured one (the
`...additionalParams` spread). -/
def claimUpdate (now : Int) (workerName : Option String) (t : Task) : Task :=
  { t with
    status := Status.in_progress
    startedRunningAt := some now
    timeoutAt := some (now + 10 * 60 * 1000)
    workerName := match workerName with
      | some w => some w
      | none => t.workerName }

/-- One claim attempt of `poll`: the atomic conditional update with
`{ new: false }` (pre-image returned), followed by the defense-in-depth
check `if (task == null || task.status !== 'pending') break`.
Returns the claimed pre-image (if the attempt claimed a task) and the
updated store. -/
def pollClaim (registeredHandlerNames : List String) (workerName : Option String)
    (now : Int) (store : List Task) : Option Task × List Task :=
  let r := findOneAndUpdate store (claimFilter registeredHandlerNames now)
    (claimUpdate now workerName)
  match r.1 with
  | some (pre, _) =>
    if pre.status == Status.pending then (some pre, r.2) else (none, r.2)
  | none => (none, r.2)

/-- The follow-up record built by `_handleRepeatingTask`'s `Task.create`
call: inherits `name`, `params`, `repeatAfterMS`, `timeoutMS`; links
`previousTaskId` to the predecessor and `originalTaskId` to the
predecessor's `originalTaskId || _id`; stamps
`schedulingTimeoutAt = scheduledAt + 10 * 60 * 1000`. -/
def mkFollowUp (freshId : Nat) (t : Task) (scheduledAt : Int) : Task :=
  { newTaskBase freshId t.name scheduledAt with
    repeatAfterMS := t.repeatAfterMS
    params := t.params
    previousTaskId := some t.id
    originalTaskId := some (t.originalTaskId.getD t.id)
    timeoutMS := t.timeoutMS
    schedulingTimeoutAt := some (scheduledAt + 10 * 60 * 1000) }

/-- `_handleRepeatingTask(Task, task)`: if `nextScheduledAt` is set,
create the follow-up at that instant; else if `repeatAfterMS` is set,
create it at `scheduledAt + repeatAfterMS`; else create nothing. -/
def handleRepeatingTask (freshId : Nat) (t : Task) : Option Task :=
  match t.nextScheduledAt with
  | some nsa => some (mkFollowUp freshId t nsa)
  | none =>
    match t.repeatAfterMS with
    | some rep => some (mkFollowUp freshId t (t.scheduledAt + rep))
    | none => none

/-- The sweep filter of `expireTimedOutTasks`:
`status: 'in_progress'`, `timeoutAt: { $exists: true, $lte: now }`. -/
def sweepFilter (now : Int) (t : Task) : Bool :=
  t.status == Status.in_progress &&
    match t.timeoutAt with
    | some ta => ta ≤ now
    | none => false

/-- The sweep update of `expireTimedOutTasks`:
`$set: { status: 'timed_out', finishedRunningAt: now }`. -/
def sweepUpdate (now : Int) (t : Task) : Task :=
  { t with status := Status.timed_out, finishedRunningAt := some now }

/-- The retry record created by `expireTimedOutTasks` when
`retryOnTimeoutCount > 0`: the clone of the swept document (spread of
`task.toObject()` minus `_id`) with `status: 'pending'`,
`retryOnTimeoutCount` decremented, `startedRunningAt`,
`finishedRunningAt`, `workerName`, `error`, `result`, `timeoutAt`
cleared, and `schedulingTimeoutAt = now + 10 * 60 * 1000`. -/
def mkRetry (freshId : Nat) (now : Int) (t : Task) : Task :=
  { t with
    id := freshId
    status := Status.pending
    retryOnTimeoutCount := t.retryOnTimeoutCount - 1
    startedRunningAt := none
    finishedRunningAt := none
    workerName := none
    errorMessage := none
    errorStack := none
    result := none
    timeoutAt := none
    schedulingTimeoutAt := some (now + 10 * 60 * 1000) }

/-- The per-task body of the sweeper loop, applied to the post-image of a
swept task: a retry record when `retryOnTimeoutCount > 0`, otherwise
whatever `_handleRepeatingTask` creates.  Returns the list of documents
inserted for this swept task. -/
def processTimedOutTask (freshId : Nat) (now : Int) (t : Task) : List Task :=
  if t.retryOnTimeoutCount > 0 then [mkRetry freshId now t]
  else (handleRepeatingTask freshId t).toList

/-- One iteration of the `expireTimedOutTasks` loop: the atomic sweep
update with `{ new: true }` (post-image), then the retry / repeat insert.
Returns the swept post-image and the inserted documents, plus the new
store. -/
def expireStep (freshId : Nat) (now : Int) (store : List Task) :
    Option (Task × List Task) × List Task :=
  let r := findOneAndUpdate store (sweepFilter now) (sweepUpdate now)
  match r.1 with
  | none => (none, r.2)
  | some (_, post) =>
    let inserted := processTimedOutTask freshId now post
    (some (post, inserted), r.2 ++ inserted)

/-- How a registered handler behaves when invoked.  `sync` returns a value
synchronously (its promise is already settled when `Promise.race` starts);
`syncThrow` throws synchronously out of the handler call (caught by the
surrounding try); `asyncAfter` settles `delayMS` milliseconds after
invocation, with a value or a rejection (message, stack). -/
inductive HandlerOutcome where
  | sync (v : Value)
  | syncThrow (msg stk : String)
  | asyncAfter (delayMS : Int) (r : Except (String × String) Value)

/-- A registered handler: its settlement behavior, plus the write it
performs (if any) to `task.nextScheduledAt` through the task handle while
running. -/
structure HandlerSpec where
  behavior : HandlerOutcome
  setsNextScheduledAt : Option Int := none

/-- The error produced by the deadline timer:
`new Error("Task timed out after <timeoutMS> ms")`. -/
def timeoutError (timeoutMS : Int) : String × String :=
  (s!"Task timed out after {timeoutMS} ms",
    s!"Error: Task timed out after {timeoutMS} ms")

/-- Settlement of the handler's promise when no deadline timer races it. -/
def settleHandler : HandlerOutcome → Except (String × String) Value
  | HandlerOutcome.sync v => Except.ok v
  | HandlerOutcome.syncThrow m s => Except.error (m, s)
  | HandlerOutcome.asyncAfter _ r => r

/-- `Promise.race` of the handler against the deadline timer
`setTimeout(reject, timeoutMS)`.  A synchronously settled handler promise
always wins the race — even against a 0 ms timer — because an already
settled promise is observed in a microtask, before any timer callback.
A synchronous throw propagates out of the race expression itself.  An
asynchronously settling handler wins only when it settles strictly before
the timer fires. -/
def raceWithTimeout (timeoutMS : Int) : HandlerOutcome → Except (String × String) Value
  | HandlerOutcome.sync v => Except.ok v
  | HandlerOutcome.syncThrow m s => Except.error (m, s)
  | HandlerOutcome.asyncAfter d r =>
    if d < timeoutMS then r else Except.error (timeoutError timeoutMS)

/-- `execute(task)`.  Returns `none` (JS null) when no handler is
registered under `task.name`, leaving the record unmutated.  Otherwise
stamps `status = 'in_progress'`, `startedRunningAt = now`, then:
if `schedulingTimeoutAt` is set and `< now`, persists the record as
`scheduling_timed_out` with `finishedRunningAt = now` and runs the
follow-up; otherwise runs the handler (racing the deadline timer when
`timeoutMS` is a number), persists the terminal transition and runs the
follow-up.  Returns the saved record and the follow-up document created
by `_handleRepeatingTask` (if any). -/
def execute (handlers : List (String × HandlerSpec)) (now : Int) (freshId : Nat)
    (t : Task) : Option (Task × Option Task) :=
  match handlers.lookup t.name with
  | none => none
  | some h =>
    let t1 := { t with status := Status.in_progress, startedRunningAt := some now }
    let schedPast : Bool := match t.schedulingTimeoutAt with
      | some sta => sta < now
      | none => false
    if schedPast then
      let t2 := { t1 with
        status := Status.scheduling_timed_out
        finishedRunningAt := some now }
      some (t2, handleRepeatingTask freshId t2)
    else
      let tRun := match h.setsNextScheduledAt with
        | some n => { t1 with nextScheduledAt := some n }
        | none => t1
      let outcome := match t.timeoutMS with
        | some tms => raceWithTimeout tms h.behavior
        | none => settleHandler h.behavior
      match outcome with
      | Except.ok v =>
        let t2 := { tRun with
          status := Status.succeeded
          finishedRunningAt := some now
          result := some v }
        some (t2, handleRepeatingTask freshId t2)
      | Except.error e =>
        let t2 := { tRun with
          status := Status.failed
          errorMessage := some e.1
          errorStack := some e.2
          finishedRunningAt := some now }
        some (t2, handleRepeatingTask freshId t2)

/-- The recognized keys of `schedule`'s options argument. -/
structure ScheduleOptions where
  repeatAfterMS : Option Int := none
  timeoutMS : Option Int := none
  retryOnTimeoutCount : Option Int := none

/-- The fourth argument of `schedule`: a bare number is `repeatAfterMS`,
otherwise an options record. -/
inductive OptionsOrRepeat where
  | repeatMS (n : Int)
  | opts (o : ScheduleOptions)

/-- `schedule(name, scheduledAt, params, optionsOrRepeat)`: creates a
pending record with `schedulingTimeoutAt = scheduledAt + 10 * 60 * 1000`;
the options spread can override `repeatAfterMS` and supply `timeoutMS` /
`retryOnTimeoutCount`. -/
def schedule (freshId : Nat) (name : String) (scheduledAt : Int)
    (params : Option Value) (oor : OptionsOrRepeat) : Task :=
  let rp : Option Int × ScheduleOptions := match oor with
    | OptionsOrRepeat.repeatMS n => (some n, {})
    | OptionsOrRepeat.opts o => (none, o)
  { newTaskBase freshId name scheduledAt with
    params := params
    repeatAfterMS := match rp.2.repeatAfterMS with
      | some r => some r
      | none => rp.1
    timeoutMS := rp.2.timeoutMS
    retryOnTimeoutCount := rp.2.retryOnTimeoutCount.getD 0
    schedulingTimeoutAt := some (scheduledAt + 10 * 60 * 1000) }

/-- `cancelTask(filter)`: when the caller supplied a filter, it is wrapped
as `{ $and: [{ status: 'pending' }, filter] }`; a null filter is passed
through to the store unchanged, where it matches any document.  The
update sets `status: 'cancelled'`, `cancelledAt: now`, and the post-image
is returned (`returnDocument: 'after'`). -/
def cancelTask (store : List Task) (now : Int) (fil : Option (Task → Bool)) :
    Option Task × List Task :=
  let effectiveFilter : Task → Bool :=
    match fil with
    | some f => fun t => t.status == Status.pending && f t
    | none => fun _ => true
  let r := findOneAndUpdate store effectiveFilter
    (fun t => { t with status := Status.cancelled, cancelledAt := some now })
  match r.1 with
  | some (_, post) => (some post, r.2)
  | none => (none, r.2)

/-- When a conditional update matched, the matched pre-image satisfied the
filter, the post-image is the update of the pre-image, the pre-image was in
the store and the post-image is in the resulting store. -/
theorem findOneAndUpdate_some (fil : Task → Bool) (upd : Task → Task) :
    ∀ (store store' : List Task) (pre post : Task),
    findOneAndUpdate store fil upd = (some (pre, post), store') →
    fil pre = true ∧ post = upd pre ∧ pre ∈ store ∧ post ∈ store' := by
  intro store
  induction store with
  | nil => intro store' pre post h; simp [findOneAndUpdate] at h
  | cons t rest ih =>
    intro store' pre post h
    by_cases hf : fil t
    · simp [findOneAndUpdate, hf] at h
      obtain ⟨⟨hpre, hpost⟩, hstore⟩ := h
      subst hpre; subst hpost; subst hstore
      exact ⟨hf, rfl, List.mem_cons_self _ _, List.mem_cons_self _ _⟩
    · simp [findOneAndUpdate, hf] at h
      obtain ⟨hres, hstore⟩ := h
      obtain ⟨h1, h2, h3, h4⟩ := ih (findOneAndUpdate rest fil upd).2 pre post
        (by rw [← hres])
      subst hstore
      exact ⟨h1, h2, List.mem_cons_of_mem _ h3, List.mem_cons_of_mem _ h4⟩

/-- A conditional update whose filter rejects every document matches
nothing and leaves the store unchanged. -/
theorem findOneAndUpdate_none (fil : Task → Bool) (upd : Task → Task)
    (h : ∀ t, fil t = false) :
    ∀ store, findOneAndUpdate store fil upd = (none, store) := by
  intro store
  induction store with
  | nil => rfl
  | cons t rest ih => simp [findOneAndUpdate, h t, ih]

/-- A pending task scheduled exactly at the witness's claim instant
(scheduledAt = 5 = now), used as a concrete store element in the C1
witness. -/
def wTask1 : Task := newTaskBase 1 "jobA" 5

/-- Claim C1: every claim attempt made by poll transitions a task to
in_progress only if its status is pending, its scheduledAt is at most now,
and its name is in the locally registered handler-name set; the pre-image
is returned and the defense-in-depth check accepts only a pending
pre-image; with an empty registry, a claim attempt claims nothing and
leaves the store unchanged; and equality is claimable (`$lte`, not `$lt`):
every pending task with a registered name and scheduledAt equal to now is
claimed when it is the first match. -/
theorem poll_claim_conditions (registeredHandlerNames : List String)
    (workerName : Option String) (now : Int) (store store' : List Task) (pre : Task)
    (h : pollClaim registeredHandlerNames workerName now store = (some pre, store')) :
    pre.status = Status.pending ∧ pre.scheduledAt ≤ now
      ∧ registeredHandlerNames.contains pre.name = true
      ∧ claimUpdate now workerName pre ∈ store'
      ∧ (claimUpdate now workerName pre).status = Status.in_progress
      ∧ pollClaim [] workerName now store = (none, store)
      ∧ (∀ tdue : Task, tdue.status = Status.pending → tdue.scheduledAt = now →
          registeredHandlerNames.contains tdue.name = true →
          claimFilter registeredHandlerNames now tdue = true
          ∧ (pollClaim registeredHandlerNames workerName now (tdue :: store)).1
              = some tdue) := by
  have hempty : pollClaim [] workerName now store = (none, store) := by
    unfold pollClaim
    rw [findOneAndUpdate_none _ _ (fun t => by simp [claimFilter]) store]
  have hdue : ∀ tdue : Task, tdue.status = Status.pending → tdue.scheduledAt = now →
      registeredHandlerNames.contains tdue.name = true →
      claimFilter registeredHandlerNames now tdue = true
      ∧ (pollClaim registeredHandlerNames workerName now (tdue :: store)).1
          = some tdue := by
    intro tdue ht1 ht2 ht3
    have ht3' : tdue.name ∈ registeredHandlerNames := by simpa using ht3
    have hfil : claimFilter registeredHandlerNames now tdue = true := by
      simp [claimFilter, ht1, ht2, ht3']
    refine ⟨hfil, ?_⟩
    simp [pollClaim, findOneAndUpdate, hfil, ht1]
  unfold pollClaim at h
  rcases hE : findOneAndUpdate store (claimFilter registeredHandlerNames now)
      (claimUpdate now workerName) with ⟨r, s2⟩
  rw [hE] at h
  cases r with
  | none => simp at h
  | some pp =>
    obtain ⟨p, post⟩ := pp
    by_cases hp : p.status == Status.pending
    · simp only [hp, if_true, Prod.mk.injEq, Option.some.injEq] at h
      obtain ⟨hpre, hs⟩ := h
      subst hpre
      subst hs
      obtain ⟨hfil, hpost, _hmem, hmem'⟩ :=
        findOneAndUpdate_some _ _ store s2 p post hE
      simp only [claimFilter, Bool.and_eq_true, beq_iff_eq, decide_eq_true_eq] at hfil
      obtain ⟨⟨h1, h2⟩, h3⟩ := hfil
      subst hpost
      exact ⟨h1, h2, h3, hmem', rfl, hempty, hdue⟩
    · simp [hp] at h

/-- Claim C1 witness: a concrete claim attempt at now = 5 over a store with a
single pending task scheduled exactly at 5 — a claim at scheduledAt = now,
exhibiting that equality is claimable — plus the empty-registry case and
the general equality-claimability conjunct at these concrete arguments. -/
theorem poll_claim_conditions_witness :
    wTask1.status = Status.pending ∧ wTask1.scheduledAt ≤ (5 : Int)
      ∧ (["jobA"].contains wTask1.name) = true
      ∧ claimUpdate 5 none wTask1 ∈ [claimUpdate 5 none wTask1]
      ∧ (claimUpdate 5 none wTask1).status = Status.in_progress
      ∧ pollClaim [] none 5 [wTask1] = (none, [wTask1])
      ∧ (∀ tdue : Task, tdue.status = Status.pending → tdue.scheduledAt = 5 →
          (["jobA"].contains tdue.name) = true →
          claimFilter ["jobA"] 5 tdue = true
          ∧ (pollClaim ["jobA"] none 5 (tdue :: [wTask1])).1 = some tdue) :=
  poll_claim_conditions ["jobA"] none 5 [wTask1] [claimUpdate 5 none wTask1]
    wTask1 (by decide)

/-- Claim C2 (amended): the claim update stamps
`startedRunningAt = now` and `timeoutAt = startedRunningAt + 600000 ms`
unconditionally — `timeoutMS` plays no part in the stamped lease. -/
theorem claim_timeoutAt_fixed_lease (now : Int) (workerName : Option String)
    (t : Task) :
    (claimUpdate now workerName t).startedRunningAt = some now
      ∧ (claimUpdate now workerName t).timeoutAt = some (now + 10 * 60 * 1000)
      ∧ (claimUpdate now workerName t).timeoutMS = t.timeoutMS :=
  ⟨rfl, rfl, rfl⟩

/-- A pending task with a small timeoutMS for the C2 counterexample. -/
def wTask2 : Task := { newTaskBase 2 "jobB" 0 with timeoutMS := some 1000 }

/-- Claim C2 counterexample: a task with timeoutMS = 1000 < 600000 is claimed
with timeoutAt = startedRunningAt + 600000, not
startedRunningAt + min(timeoutMS, 600000) = startedRunningAt + 1000. -/
theorem claim_timeoutAt_not_min :
    (pollClaim ["jobB"] none 5 [wTask2]).1 = some wTask2
      ∧ (pollClaim ["jobB"] none 5 [wTask2]).2 = [claimUpdate 5 none wTask2]
      ∧ (claimUpdate 5 none wTask2).startedRunningAt = some 5
      ∧ wTask2.timeoutMS = some 1000
      ∧ (claimUpdate 5 none wTask2).timeoutAt = some 600005
      ∧ ¬ (claimUpdate 5 none wTask2).timeoutAt = some (5 + min 1000 600000) :=
  ⟨by decide, by decide, rfl, rfl, by decide, by decide⟩

/-- A task whose scheduling deadline is already past, with no handler
registered anywhere, for the C3 counterexample. -/
def wTask3 : Task := { newTaskBase 3 "jobC" 0 with schedulingTimeoutAt := some (-5) }

/-- Claim C3 counterexample: a task whose schedulingTimeoutAt is past but
whose name has no registered handler is NOT transitioned to
scheduling_timed_out — execute returns null without mutating anything,
because the handler-registration check runs before the scheduling-timeout
re-check. -/
theorem execute_scheduling_timeout_unregistered :
    wTask3.schedulingTimeoutAt = some (-5) ∧ ((-5 : Int) < 0)
      ∧ execute [] 0 1 wTask3 = none :=
  ⟨rfl, by decide, by decide⟩

/-- Claim C3 (amended): when a handler IS registered for the task's name and
now > schedulingTimeoutAt, execute transitions the task to
scheduling_timed_out with finishedRunningAt = now, persists it, invokes the
follow-up, and never invokes the handler (the outcome is independent of the
registered handler's behavior); when no handler is registered, execute
returns null without mutating the record. -/
theorem execute_scheduling_timeout (handlers : List (String × HandlerSpec))
    (now : Int) (freshId : Nat) (t : Task) (sta : Int)
    (hreg : (handlers.lookup t.name).isSome = true)
    (hsta : t.schedulingTimeoutAt = some sta) (hlt : sta < now) :
    execute handlers now freshId t =
      some ({ t with status := Status.scheduling_timed_out,
                     startedRunningAt := some now,
                     finishedRunningAt := some now },
        handleRepeatingTask freshId
          { t with status := Status.scheduling_timed_out,
                   startedRunningAt := some now,
                   finishedRunningAt := some now })
      ∧ ∀ (handlers2 : List (String × HandlerSpec)),
          (handlers2.lookup t.name).isSome = true →
          execute handlers2 now freshId t = execute handlers now freshId t := by
  have main : ∀ (hs : List (String × HandlerSpec)),
      (hs.lookup t.name).isSome = true →
      execute hs now freshId t =
        some ({ t with status := Status.scheduling_timed_out,
                       startedRunningAt := some now,
                       finishedRunningAt := some now },
          handleRepeatingTask freshId
            { t with status := Status.scheduling_timed_out,
                     startedRunningAt := some now,
                     finishedRunningAt := some now }) := by
    intro hs hsome
    rw [Option.isSome_iff_exists] at hsome
    obtain ⟨hd, hlook⟩ := hsome
    simp [execute, hlook, hsta, hlt]
  exact ⟨main handlers hreg, fun h2 hr2 => (main h2 hr2).trans (main handlers hreg).symm⟩

/-- A registered-name task whose scheduling deadline is past, for the C3
witness. -/
def wTask3b : Task := { newTaskBase 4 "jobD" 0 with schedulingTimeoutAt := some 10 }

/-- Claim C3 witness: concrete scheduling timeout with a registered handler
at now = 20 > schedulingTimeoutAt = 10. -/
theorem execute_scheduling_timeout_witness :
    execute [("jobD", ⟨HandlerOutcome.sync (Value.vint 1), none⟩)] 20 7 wTask3b =
      some ({ wTask3b with status := Status.scheduling_timed_out,
                           startedRunningAt := some 20,
                           finishedRunningAt := some 20 },
        handleRepeatingTask 7
          { wTask3b with status := Status.scheduling_timed_out,
                         startedRunningAt := some 20,
                         finishedRunningAt := some 20 })
      ∧ ∀ (handlers2 : List (String × HandlerSpec)),
          (handlers2.lookup wTask3b.name).isSome = true →
          execute handlers2 20 7 wTask3b =
            execute [("jobD", ⟨HandlerOutcome.sync (Value.vint 1), none⟩)] 20 7 wTask3b :=
  execute_scheduling_timeout [("jobD", ⟨HandlerOutcome.sync (Value.vint 1), none⟩)]
    20 7 wTask3b 10 (by decide) rfl (by decide)

/-- A registered-name task with a past scheduling deadline for the C9
witness. -/
def wTask9 : Task := { newTaskBase 5 "jobI" 0 with schedulingTimeoutAt := some 30 }

/-- Claim C9: on the scheduling_timed_out path, execute nonetheless stamps
startedRunningAt = now on the persisted record, because status and
startedRunningAt are assigned before the scheduling-timeout check — even
though the handler is never invoked (the saved record carries no result
and no error). -/
theorem execute_scheduling_timeout_stamps_started
    (handlers : List (String × HandlerSpec)) (now : Int) (freshId : Nat)
    (t : Task) (sta : Int)
    (hreg : (handlers.lookup t.name).isSome = true)
    (hsta : t.schedulingTimeoutAt = some sta) (hlt : sta < now) :
    ∃ t2 fu, execute handlers now freshId t = some (t2, fu)
      ∧ t2.startedRunningAt = some now
      ∧ t2.status = Status.scheduling_timed_out
      ∧ t2.result = t.result
      ∧ t2.errorMessage = t.errorMessage := by
  rw [Option.isSome_iff_exists] at hreg
  obtain ⟨hd, hlook⟩ := hreg
  refine ⟨{ t with status := Status.scheduling_timed_out,
                   startedRunningAt := some now,
                   finishedRunningAt := some now },
    handleRepeatingTask freshId
      { t with status := Status.scheduling_timed_out,
               startedRunningAt := some now,
               finishedRunningAt := some now }, ?_, rfl, rfl, rfl, rfl⟩
  simp [execute, hlook, hsta, hlt]

/-- Claim C9 witness: concrete scheduling-timed-out execution at now = 40
with schedulingTimeoutAt = 30 stamps startedRunningAt = 40. -/
theorem execute_scheduling_timeout_stamps_started_witness :
    ∃ t2 fu,
      execute [("jobI", ⟨HandlerOutcome.sync (Value.vint 2), none⟩)] 40 8 wTask9 =
        some (t2, fu)
      ∧ t2.startedRunningAt = some 40
      ∧ t2.status = Status.scheduling_timed_out
      ∧ t2.result = wTask9.result
      ∧ t2.errorMessage = wTask9.errorMessage :=
  execute_scheduling_timeout_stamps_started
    [("jobI", ⟨HandlerOutcome.sync (Value.vint 2), none⟩)] 40 8 wTask9 30
    (by decide) rfl (by decide)

/-- Claim C4: a terminal task with nextScheduledAt or repeatAfterMS set
produces exactly one pending follow-up record, scheduled at
nextScheduledAt when the handler wrote it (overriding repeatAfterMS), else
at scheduledAt + repeatAfterMS; the follow-up inherits name, params,
repeatAfterMS and timeoutMS, links previousTaskId to the predecessor and
originalTaskId to the predecessor's originalTaskId (or its id when unset),
and carries schedulingTimeoutAt = its scheduledAt + 600000 ms. -/
theorem followUp_spec (freshId : Nat) (t : Task)
    (h : t.nextScheduledAt ≠ none ∨ t.repeatAfterMS ≠ none) :
    ∃ r, handleRepeatingTask freshId t = some r
      ∧ r.status = Status.pending
      ∧ r.name = t.name ∧ r.params = t.params
      ∧ r.repeatAfterMS = t.repeatAfterMS ∧ r.timeoutMS = t.timeoutMS
      ∧ r.previousTaskId = some t.id
      ∧ r.originalTaskId = some (t.originalTaskId.getD t.id)
      ∧ r.schedulingTimeoutAt = some (r.scheduledAt + 10 * 60 * 1000)
      ∧ (∀ nsa, t.nextScheduledAt = some nsa → r.scheduledAt = nsa)
      ∧ (t.nextScheduledAt = none →
          ∀ rep, t.repeatAfterMS = some rep → r.scheduledAt = t.scheduledAt + rep) := by
  cases hn : t.nextScheduledAt with
  | some nsa =>
    refine ⟨mkFollowUp freshId t nsa, by simp [handleRepeatingTask, hn],
      rfl, rfl, rfl, rfl, rfl, rfl, rfl, rfl, ?_, ?_⟩
    · intro nsa' h'
      exact Option.some.inj h'
    · intro h'
      exact absurd h' (by simp)
  | none =>
    cases hr : t.repeatAfterMS with
    | some rep =>
      refine ⟨mkFollowUp freshId t (t.scheduledAt + rep),
        by simp [handleRepeatingTask, hn, hr],
        rfl, rfl, rfl, hr, rfl, rfl, rfl, rfl, ?_, ?_⟩
      · intro nsa' h'
        exact absurd h'.symm (by simp)
      · intro _ rep' h'
        obtain rfl := Option.some.inj h'
        rfl
    | none =>
      rcases h with h | h
      · exact absurd hn h
      · exact absurd hr h

/-- A terminal task with both a handler-written nextScheduledAt and a
repeatAfterMS, for the C4 witness (override case). -/
def wTask4 : Task := { newTaskBase 6 "jobE" 100 with
  repeatAfterMS := some 5000
  nextScheduledAt := some 9999
  timeoutMS := some 70
  params := some (Value.vstr "payload") }

/-- Claim C4 witness: the concrete follow-up of a task with
nextScheduledAt = 9999 and repeatAfterMS = 5000 is scheduled at 9999. -/
theorem followUp_spec_witness :
    ∃ r, handleRepeatingTask 7 wTask4 = some r
      ∧ r.status = Status.pending
      ∧ r.name = wTask4.name ∧ r.params = wTask4.params
      ∧ r.repeatAfterMS = wTask4.repeatAfterMS ∧ r.timeoutMS = wTask4.timeoutMS
      ∧ r.previousTaskId = some wTask4.id
      ∧ r.originalTaskId = some (wTask4.originalTaskId.getD wTask4.id)
      ∧ r.schedulingTimeoutAt = some (r.scheduledAt + 10 * 60 * 1000)
      ∧ (∀ nsa, wTask4.nextScheduledAt = some nsa → r.scheduledAt = nsa)
      ∧ (wTask4.nextScheduledAt = none →
          ∀ rep, wTask4.repeatAfterMS = some rep →
            r.scheduledAt = wTask4.scheduledAt + rep) :=
  followUp_spec 7 wTask4 (Or.inl (by decide))

/-- Claim C7 (amended): with timeoutMS set, a handler whose promise settles
strictly after the deadline loses the race and the task is persisted as
failed with error.message "Task timed out after <timeoutMS> ms"; but a
handler that settles synchronously always wins the race — even with
timeoutMS = 0 — so the task succeeds rather than failing. -/
theorem execute_timeout_race (t : Task) (now tms d : Int) (freshId : Nat)
    (r : Except (String × String) Value) (v : Value)
    (hsch : t.schedulingTimeoutAt = none) (htms : t.timeoutMS = some tms)
    (hd : tms < d) :
    (∃ t2 fu,
      execute [(t.name, ⟨HandlerOutcome.asyncAfter d r, none⟩)] now freshId t
          = some (t2, fu)
        ∧ t2.status = Status.failed
        ∧ t2.errorMessage = some s!"Task timed out after {tms} ms"
        ∧ t2.finishedRunningAt = some now)
    ∧ (∃ t2 fu,
      execute [(t.name, ⟨HandlerOutcome.sync v, none⟩)] now freshId t
          = some (t2, fu)
        ∧ t2.status = Status.succeeded ∧ t2.result = some v
        ∧ t2.finishedRunningAt = some now) := by
  have hnotlt : ¬ d < tms := not_lt.mpr (le_of_lt hd)
  constructor
  · refine ⟨{ t with
                status := Status.failed,
                startedRunningAt := some now,
                errorMessage := some ((timeoutError tms).1),
                errorStack := some ((timeoutError tms).2),
                finishedRunningAt := some now },
      handleRepeatingTask freshId
        { t with
            status := Status.failed,
            startedRunningAt := some now,
            errorMessage := some ((timeoutError tms).1),
            errorStack := some ((timeoutError tms).2),
            finishedRunningAt := some now },
      ?_, rfl, rfl, rfl⟩
    simp [execute, hsch, htms, raceWithTimeout, hnotlt, timeoutError]
  · refine ⟨{ t with
                status := Status.succeeded,
                startedRunningAt := some now,
                finishedRunningAt := some now,
                result := some v },
      handleRepeatingTask freshId
        { t with
            status := Status.succeeded,
            startedRunningAt := some now,
            finishedRunningAt := some now,
            result := some v },
      ?_, rfl, rfl, rfl⟩
    simp [execute, hsch, htms, raceWithTimeout]

/-- A task with timeoutMS = 50 and no scheduling deadline, for the C7
witness. -/
def wTask7 : Task := { newTaskBase 8 "jobH" 0 with timeoutMS := some 50 }

/-- Claim C7 witness: concrete race at timeoutMS = 50 against a handler
settling at 100 ms (times out) and against a synchronous handler
(succeeds). -/
theorem execute_timeout_race_witness :
    (∃ t2 fu,
      execute [(wTask7.name,
          ⟨HandlerOutcome.asyncAfter 100 (Except.ok (Value.vint 1)), none⟩)]
          0 9 wTask7 = some (t2, fu)
        ∧ t2.status = Status.failed
        ∧ t2.errorMessage = some s!"Task timed out after {(50 : Int)} ms"
        ∧ t2.finishedRunningAt = some 0)
    ∧ (∃ t2 fu,
      execute [(wTask7.name, ⟨HandlerOutcome.sync (Value.vint 2), none⟩)]
          0 9 wTask7 = some (t2, fu)
        ∧ t2.status = Status.succeeded ∧ t2.result = some (Value.vint 2)
        ∧ t2.finishedRunningAt = some 0) :=
  execute_timeout_race wTask7 0 50 100 9 (Except.ok (Value.vint 1))
    (Value.vint 2) rfl rfl (by decide)

/-- A task with timeoutMS = 0 and a synchronously returning handler, for the
C7 counterexample. -/
def wTask7b : Task := { newTaskBase 10 "jobJ" 0 with timeoutMS := some 0 }

/-- Claim C7 counterexample: a task with timeoutMS = 0 whose handler returns
synchronously succeeds — it does not fail immediately, because the
handler's already-settled promise wins Promise.race against the 0 ms
deadline timer. -/
theorem execute_timeout_zero_sync_succeeds :
    wTask7b.timeoutMS = some 0
      ∧ (execute [("jobJ", ⟨HandlerOutcome.sync (Value.vint 42), none⟩)] 0 11
          wTask7b).map (fun p => p.1.status) = some Status.succeeded
      ∧ (execute [("jobJ", ⟨HandlerOutcome.sync (Value.vint 42), none⟩)] 0 11
          wTask7b).map (fun p => p.1.result) = some (some (Value.vint 42)) :=
  ⟨rfl, by decide, by decide⟩

/-- Claim C5: a task swept by the sweeper (in_progress, timeoutAt ≤ now) is
transitioned to timed_out with finishedRunningAt = now, and when its
retryOnTimeoutCount is positive the single inserted record is the retry:
pending, retryOnTimeoutCount decremented, startedRunningAt /
finishedRunningAt / workerName / timeoutAt / error / result cleared,
scheduledAt kept, schedulingTimeoutAt = now + 600000 ms, and its
previousTaskId / originalTaskId merely inherited from the swept record
rather than linked to it. -/
theorem sweeper_retry_spec (freshId : Nat) (now : Int) (store store' : List Task)
    (post : Task) (inserted : List Task)
    (h1 : expireStep freshId now store = (some (post, inserted), store'))
    (h2 : post.retryOnTimeoutCount > 0) :
    post.status = Status.timed_out
      ∧ post.finishedRunningAt = some now
      ∧ (∃ pre ∈ store, sweepFilter now pre = true ∧ post = sweepUpdate now pre
          ∧ pre.status = Status.in_progress
          ∧ ∃ ta, pre.timeoutAt = some ta ∧ ta ≤ now)
      ∧ inserted = [mkRetry freshId now post]
      ∧ (mkRetry freshId now post).status = Status.pending
      ∧ (mkRetry freshId now post).retryOnTimeoutCount = post.retryOnTimeoutCount - 1
      ∧ (mkRetry freshId now post).startedRunningAt = none
      ∧ (mkRetry freshId now post).finishedRunningAt = none
      ∧ (mkRetry freshId now post).workerName = none
      ∧ (mkRetry freshId now post).timeoutAt = none
      ∧ (mkRetry freshId now post).errorMessage = none
      ∧ (mkRetry freshId now post).errorStack = none
      ∧ (mkRetry freshId now post).result = none
      ∧ (mkRetry freshId now post).scheduledAt = post.scheduledAt
      ∧ (mkRetry freshId now post).schedulingTimeoutAt = some (now + 10 * 60 * 1000)
      ∧ (mkRetry freshId now post).previousTaskId = post.previousTaskId
      ∧ (mkRetry freshId now post).originalTaskId = post.originalTaskId := by
  unfold expireStep at h1
  rcases hE : findOneAndUpdate store (sweepFilter now) (sweepUpdate now) with ⟨r, s2⟩
  rw [hE] at h1
  cases r with
  | none => simp at h1
  | some pp =>
    obtain ⟨pre0, post0⟩ := pp
    simp only [Prod.mk.injEq, Option.some.injEq] at h1
    obtain ⟨⟨hpost, hins⟩, _hs⟩ := h1
    subst hpost
    subst hins
    obtain ⟨hfil, hpostEq, hmem, _⟩ :=
      findOneAndUpdate_some _ _ store s2 pre0 post0 hE
    have hstatus : post0.status = Status.timed_out := by rw [hpostEq]; rfl
    have hfin : post0.finishedRunningAt = some now := by rw [hpostEq]; rfl
    have hfil' := hfil
    simp only [sweepFilter, Bool.and_eq_true, beq_iff_eq] at hfil'
    obtain ⟨hpre_status, hpre_ta⟩ := hfil'
    have hta : ∃ ta, pre0.timeoutAt = some ta ∧ ta ≤ now := by
      cases hto : pre0.timeoutAt with
      | none => rw [hto] at hpre_ta; simp at hpre_ta
      | some ta =>
        rw [hto] at hpre_ta
        simp only [decide_eq_true_eq] at hpre_ta
        exact ⟨ta, rfl, hpre_ta⟩
    refine ⟨hstatus, hfin, ⟨pre0, hmem, hfil, hpostEq, hpre_status, hta⟩,
      by simp [processTimedOutTask, h2],
      rfl, rfl, rfl, rfl, rfl, rfl, rfl, rfl, rfl, rfl, rfl, rfl, rfl⟩

/-- An in_progress task with an expired lease and two retries left, for the
C5 witness. -/
def wTask5 : Task := { newTaskBase 12 "jobK" 50 with
  status := Status.in_progress
  timeoutAt := some 100
  startedRunningAt := some 60
  retryOnTimeoutCount := 2
  workerName := some "w"
  params := some (Value.vstr "p")
  errorMessage := some "boom"
  result := some (Value.vint 3) }

/-- Claim C5 witness: a concrete sweep at now = 200 of an in_progress task
with timeoutAt = 100 and retryOnTimeoutCount = 2. -/
theorem sweeper_retry_spec_witness :
    (sweepUpdate 200 wTask5).status = Status.timed_out
      ∧ (sweepUpdate 200 wTask5).finishedRunningAt = some 200
      ∧ (∃ pre ∈ [wTask5], sweepFilter 200 pre = true
          ∧ sweepUpdate 200 wTask5 = sweepUpdate 200 pre
          ∧ pre.status = Status.in_progress
          ∧ ∃ ta, pre.timeoutAt = some ta ∧ ta ≤ 200)
      ∧ [mkRetry 13 200 (sweepUpdate 200 wTask5)]
          = [mkRetry 13 200 (sweepUpdate 200 wTask5)]
      ∧ (mkRetry 13 200 (sweepUpdate 200 wTask5)).status = Status.pending
      ∧ (mkRetry 13 200 (sweepUpdate 200 wTask5)).retryOnTimeoutCount
          = (sweepUpdate 200 wTask5).retryOnTimeoutCount - 1
      ∧ (mkRetry 13 200 (sweepUpdate 200 wTask5)).startedRunningAt = none
      ∧ (mkRetry 13 200 (sweepUpdate 200 wTask5)).finishedRunningAt = none
      ∧ (mkRetry 13 200 (sweepUpdate 200 wTask5)).workerName = none
      ∧ (mkRetry 13 200 (sweepUpdate 200 wTask5)).timeoutAt = none
      ∧ (mkRetry 13 200 (sweepUpdate 200 wTask5)).errorMessage = none
      ∧ (mkRetry 13 200 (sweepUpdate 200 wTask5)).errorStack = none
      ∧ (mkRetry 13 200 (sweepUpdate 200 wTask5)).result = none
      ∧ (mkRetry 13 200 (sweepUpdate 200 wTask5)).scheduledAt
          = (sweepUpdate 200 wTask5).scheduledAt
      ∧ (mkRetry 13 200 (sweepUpdate 200 wTask5)).schedulingTimeoutAt
          = some (200 + 10 * 60 * 1000)
      ∧ (mkRetry 13 200 (sweepUpdate 200 wTask5)).previousTaskId
          = (sweepUpdate 200 wTask5).previousTaskId
      ∧ (mkRetry 13 200 (sweepUpdate 200 wTask5)).originalTaskId
          = (sweepUpdate 200 wTask5).originalTaskId :=
  sweeper_retry_spec 13 200 [wTask5]
    [sweepUpdate 200 wTask5, mkRetry 13 200 (sweepUpdate 200 wTask5)]
    (sweepUpdate 200 wTask5) [mkRetry 13 200 (sweepUpdate 200 wTask5)]
    (by decide) (by decide)

/-- Claim C10: a swept task with retryOnTimeoutCount > 0 causes exactly one
insert — the retry — and no repeat follow-up in that sweep, even when
repeatAfterMS or nextScheduledAt is set; the retry clone inherits every
field not explicitly cleared, including repeatAfterMS, nextScheduledAt,
params, logs and sideEffects. -/
theorem sweeper_retry_no_repeat (freshId : Nat) (now : Int)
    (store store' : List Task) (post : Task) (inserted : List Task)
    (h1 : expireStep freshId now store = (some (post, inserted), store'))
    (h2 : post.retryOnTimeoutCount > 0) :
    inserted = [mkRetry freshId now post]
      ∧ inserted.length = 1
      ∧ (mkRetry freshId now post).repeatAfterMS = post.repeatAfterMS
      ∧ (mkRetry freshId now post).nextScheduledAt = post.nextScheduledAt
      ∧ (mkRetry freshId now post).params = post.params
      ∧ (mkRetry freshId now post).logs = post.logs
      ∧ (mkRetry freshId now post).sideEffects = post.sideEffects
      ∧ (mkRetry freshId now post).name = post.name
      ∧ (mkRetry freshId now post).timeoutMS = post.timeoutMS
      ∧ (mkRetry freshId now post).scheduledAt = post.scheduledAt := by
  unfold expireStep at h1
  rcases hE : findOneAndUpdate store (sweepFilter now) (sweepUpdate now) with ⟨r, s2⟩
  rw [hE] at h1
  cases r with
  | none => simp at h1
  | some pp =>
    obtain ⟨pre0, post0⟩ := pp
    simp only [Prod.mk.injEq, Option.some.injEq] at h1
    obtain ⟨⟨hpost, hins⟩, _hs⟩ := h1
    subst hpost
    subst hins
    have hproc : processTimedOutTask freshId now post0
        = [mkRetry freshId now post0] := by
      simp [processTimedOutTask, h2]
    exact ⟨hproc, by rw [hproc]; rfl, rfl, rfl, rfl, rfl, rfl, rfl, rfl, rfl⟩

/-- An in_progress repeating task with an expired lease and one retry left,
for the C10 witness. -/
def wTask10 : Task := { newTaskBase 14 "jobL" 50 with
  status := Status.in_progress
  timeoutAt := some 100
  startedRunningAt := some 60
  retryOnTimeoutCount := 1
  repeatAfterMS := some 60000
  nextScheduledAt := some 999
  params := some (Value.vstr "q")
  logs := [(1, "started")]
  sideEffects := ["fx"] }

/-- Claim C10 witness: a concrete sweep at now = 200 of a repeating task
(repeatAfterMS and nextScheduledAt both set) with retryOnTimeoutCount = 1
inserts only the retry. -/
theorem sweeper_retry_no_repeat_witness :
    [mkRetry 15 200 (sweepUpdate 200 wTask10)]
        = [mkRetry 15 200 (sweepUpdate 200 wTask10)]
      ∧ ([mkRetry 15 200 (sweepUpdate 200 wTask10)] : List Task).length = 1
      ∧ (mkRetry 15 200 (sweepUpdate 200 wTask10)).repeatAfterMS
          = (sweepUpdate 200 wTask10).repeatAfterMS
      ∧ (mkRetry 15 200 (sweepUpdate 200 wTask10)).nextScheduledAt
          = (sweepUpdate 200 wTask10).nextScheduledAt
      ∧ (mkRetry 15 200 (sweepUpdate 200 wTask10)).params
          = (sweepUpdate 200 wTask10).params
      ∧ (mkRetry 15 200 (sweepUpdate 200 wTask10)).logs
          = (sweepUpdate 200 wTask10).logs
      ∧ (mkRetry 15 200 (sweepUpdate 200 wTask10)).sideEffects
          = (sweepUpdate 200 wTask10).sideEffects
      ∧ (mkRetry 15 200 (sweepUpdate 200 wTask10)).name
          = (sweepUpdate 200 wTask10).name
      ∧ (mkRetry 15 200 (sweepUpdate 200 wTask10)).timeoutMS
          = (sweepUpdate 200 wTask10).timeoutMS
      ∧ (mkRetry 15 200 (sweepUpdate 200 wTask10)).scheduledAt
          = (sweepUpdate 200 wTask10).scheduledAt :=
  sweeper_retry_no_repeat 15 200 [wTask10]
    [sweepUpdate 200 wTask10, mkRetry 15 200 (sweepUpdate 200 wTask10)]
    (sweepUpdate 200 wTask10) [mkRetry 15 200 (sweepUpdate 200 wTask10)]
    (by decide) (by decide)

/-- An in_progress task, for the C6 failing input. -/
def wTask6 : Task := { newTaskBase 16 "jobG" 0 with status := Status.in_progress }

/-- Claim C6 fails on the code: cancelTask with a null filter skips the
pending-only guard (the `$and` wrapping only happens when the caller
supplied a filter), so an in_progress record is cancelled and returned as
the post-image — contradicting the spec's P7, which the source's own guard
structure shows was the intent. -/
theorem cancelTask_null_filter_cancels_in_progress :
    wTask6.status = Status.in_progress
      ∧ (cancelTask [wTask6] 100 none).1 =
          some { wTask6 with status := Status.cancelled, cancelledAt := some 100 }
      ∧ (cancelTask [wTask6] 100
          (some (fun t => t.name == "jobG"))).1 = none :=
  ⟨rfl, by decide, by decide⟩

/-- Claim C8: schedule followed by a successful execute yields a record
whose params equal the scheduled params and whose result is the handler's
return value, with status succeeded and finishedRunningAt = now; a failing
handler instead yields status failed with error message and stack
populated and finishedRunningAt = now. -/
theorem schedule_execute_roundtrip (name : String) (scheduledAt : Int)
    (params : Option Value) (v : Value) (msg stk : String) (now : Int)
    (fid1 fid2 fid3 fid4 : Nat)
    (hnow : ¬ (scheduledAt + 10 * 60 * 1000 < now)) :
    (∃ t2 fu, execute [(name, ⟨HandlerOutcome.sync v, none⟩)] now fid2
        (schedule fid1 name scheduledAt params (OptionsOrRepeat.opts {}))
        = some (t2, fu)
      ∧ t2.params = params ∧ t2.result = some v ∧ t2.status = Status.succeeded
      ∧ t2.finishedRunningAt = some now ∧ t2.name = name)
    ∧ (∃ t2 fu, execute [(name, ⟨HandlerOutcome.syncThrow msg stk, none⟩)] now fid4
        (schedule fid3 name scheduledAt params (OptionsOrRepeat.opts {}))
        = some (t2, fu)
      ∧ t2.params = params ∧ t2.status = Status.failed
      ∧ t2.errorMessage = some msg ∧ t2.errorStack = some stk
      ∧ t2.finishedRunningAt = some now) := by
  constructor
  · refine ⟨{ schedule fid1 name scheduledAt params (OptionsOrRepeat.opts {}) with
                status := Status.succeeded,
                startedRunningAt := some now,
                finishedRunningAt := some now,
                result := some v },
      handleRepeatingTask fid2
        { schedule fid1 name scheduledAt params (OptionsOrRepeat.opts {}) with
            status := Status.succeeded,
            startedRunningAt := some now,
            finishedRunningAt := some now,
            result := some v },
      ?_, rfl, rfl, rfl, rfl, rfl⟩
    simp [execute, schedule, newTaskBase, settleHandler, hnow]
    omega
  · refine ⟨{ schedule fid3 name scheduledAt params (OptionsOrRepeat.opts {}) with
                status := Status.failed,
                startedRunningAt := some now,
                errorMessage := some msg,
                errorStack := some stk,
                finishedRunningAt := some now },
      handleRepeatingTask fid4
        { schedule fid3 name scheduledAt params (OptionsOrRepeat.opts {}) with
            status := Status.failed,
            startedRunningAt := some now,
            errorMessage := some msg,
            errorStack := some stk,
            finishedRunningAt := some now },
      ?_, rfl, rfl, rfl, rfl, rfl⟩
    simp [execute, schedule, newTaskBase, settleHandler, hnow]
    omega

/-- Claim C8 witness: a concrete round trip at now = 7 for a task scheduled
at 0 with string params, a handler returning 42 and a handler throwing
"oops". -/
theorem schedule_execute_roundtrip_witness :
    (∃ t2 fu, execute [("jobM", ⟨HandlerOutcome.sync (Value.vint 42), none⟩)] 7 18
        (schedule 17 "jobM" 0 (some (Value.vstr "question"))
          (OptionsOrRepeat.opts {}))
        = some (t2, fu)
      ∧ t2.params = some (Value.vstr "question") ∧ t2.result = some (Value.vint 42)
      ∧ t2.status = Status.succeeded
      ∧ t2.finishedRunningAt = some 7 ∧ t2.name = "jobM")
    ∧ (∃ t2 fu, execute [("jobM", ⟨HandlerOutcome.syncThrow "oops" "trace", none⟩)]
        7 20 (schedule 19 "jobM" 0 (some (Value.vstr "question"))
          (OptionsOrRepeat.opts {}))
        = some (t2, fu)
      ∧ t2.params = some (Value.vstr "question") ∧ t2.status = Status.failed
      ∧ t2.errorMessage = some "oops" ∧ t2.errorStack = some "trace"
      ∧ t2.finishedRunningAt = some 7) :=
  schedule_execute_roundtrip "jobM" 0 (some (Value.vstr "question"))
    (Value.vint 42) "oops" "trace" 7 17 18 19 20 (by decide)

end Sched
